import Mathlib

/-!
Shallow embedding of `src/prospector/tools/pylint/__init__.py` (the pylint tool
adapter of prospector): the message-combination pass, the scan-root reduction,
the sys.path manipulation, and the layered configuration of the linter.

Python semantics modelled explicitly: exceptions become `Except PyError`,
dictionaries become insertion-ordered association lists, `set` iteration order
(which is hash-dependent in CPython) is modelled relationally or through an
explicit enumeration oracle.
-/

deriving instance DecidableEq for Except

namespace Prospector

/-- Exceptions that the embedded code can raise. -/
inductive PyError where
  | attributeError
  | typeError
  | importError
  | unknownMessageError
  | engineError
deriving DecidableEq, Repr

/-- Modelled from the spec: `prospector/message.py` is not under `src/`.
Location of a diagnostic: file path, optional module name, optional
function/class context, line number, column number (spec section 3). -/
structure Location where
  path : String
  moduleName : Option String
  functionName : Option String
  line : Nat
  character : Nat
deriving DecidableEq, Repr

/-- Modelled from the spec: `prospector/message.py` is not under `src/`.
A diagnostic: source-tool name, code, Location, free-text message. -/
structure Message where
  source : String
  code : String
  location : Location
  message : String
deriving DecidableEq, Repr

/-- Modelled from the spec: sort key for a Message, "comparable by
(Location, code, source-tool, message)", Location ordered by
"file, then line, then column" (spec section 3). -/
def msgKey (m : Message) :
    Lex (String × Lex (Nat × Lex (Nat × Lex (String × Lex (String × String))))) :=
  toLex (m.location.path, toLex (m.location.line, toLex (m.location.character,
    toLex (m.code, toLex (m.source, m.message)))))

/-- The total (pre)order by which diagnostics are sorted. -/
def msgLe (a b : Message) : Prop := msgKey a ≤ msgKey b

instance : DecidableRel msgLe := fun a b =>
  inferInstanceAs (Decidable (msgKey a ≤ msgKey b))

instance : IsTotal Message msgLe := ⟨fun a b => le_total (msgKey a) (msgKey b)⟩

instance : IsTrans Message msgLe := ⟨fun _ _ _ hab hbc => le_trans hab hbc⟩

/-- Modelled from the spec: Python `sorted` over Messages, a stable sort by the
total order of spec section 3. -/
def sortMessages (l : List Message) : List Message := List.insertionSort msgLe l

/-- Split a character list on a separator character (Python `str.split`). -/
def splitOnChar (sep : Char) : List Char → List (List Char)
  | [] => [[]]
  | c :: rest =>
    if c = sep then [] :: splitOnChar sep rest
    else
      match splitOnChar sep rest with
      | [] => [[c]]
      | g :: gs => (c :: g) :: gs

/-- `p.split("/")` as strings. -/
def splitSlash (p : String) : List String := (splitOnChar '/' p.data).map List.asString

/-- Join strings with a separator (Python `sep.join`). -/
def pyIntercalate (sep : String) : List String → String
  | [] => ""
  | [s] => s
  | s :: rest => s ++ sep ++ pyIntercalate sep rest

/-! ## The regular expression at line 18:
`_UNUSED_WILDCARD_IMPORT_RE = re.compile(r"^Unused import(\(s\))? (.*) from wildcard import")`
implemented with Python `re.match` semantics (anchored at the start, greedy
optional group, greedy `.*` that does not cross a newline, trailing text
allowed). -/

/-- Strip a literal pattern from the front of the character stream. -/
def stripLit (s pat : List Char) : Option (List Char) :=
  if pat.isPrefixOf s then some (s.drop pat.length) else none

/-- The literal that must follow the captured group. -/
def wildcardNeedle : List Char := " from wildcard import".data

/-- Greedy `(.*) from wildcard import` on the remaining characters: `.` does not
match a newline, group 2 ends at the last viable occurrence of the literal. -/
def wildcardTail (rest : List Char) : Option (List Char) :=
  (((List.range (rest.length + 1)).filter
    (fun p => wildcardNeedle.isPrefixOf (rest.drop p) && !((rest.take p).contains '\n'))).getLast?).map
    (fun p => rest.take p)

/-- `_UNUSED_WILDCARD_IMPORT_RE.match` on a character list: returns
(group 1, group 2) on success. Group 1 is the optional literal `(s)` marker
(present or absent), group 2 is the text captured by `(.*)`. -/
def wildcardMatchL (s : List Char) : Option (Option (List Char) × List Char) :=
  match stripLit s "Unused import".data with
  | none => none
  | some r1 =>
    let withMarker :=
      match stripLit r1 "(s)".data with
      | none => none
      | some r2 =>
        match stripLit r2 " ".data with
        | none => none
        | some r3 => (wildcardTail r3).map (fun g2 => (some "(s)".data, g2))
    match withMarker with
    | some res => some res
    | none =>
      match stripLit r1 " ".data with
      | none => none
      | some r3 => (wildcardTail r3).map (fun g2 => ((none : Option (List Char)), g2))

/-- `_UNUSED_WILDCARD_IMPORT_RE.match(message)` over strings. -/
def wildcardMatch (s : String) : Option (Option String × String) :=
  (wildcardMatchL s.data).map (fun r => (r.1.map List.asString, r.2.asString))

/-! ## `PylintTool._combine_w0614` (lines 198-222) and `combine` (lines 224-236) -/

/-- One message of the loop at lines 213-216: the code appends
`_UNUSED_WILDCARD_IMPORT_RE.match(msg.message).group(1)` for each message of a
group; when the match fails, `.group(1)` on `None` raises `AttributeError`.
Note the source takes group 1 (the optional `(s)` marker), not group 2. -/
def extractNames : List Message → Except PyError (List (Option String))
  | [] => Except.ok []
  | m :: rest =>
    match wildcardMatch m.message with
    | none => Except.error PyError.attributeError
    | some (g1, _) => (extractNames rest).map (fun ns => g1 :: ns)

/-- Python `", ".join(names)` where the elements may be `None` (in which case
`join` raises `TypeError`). -/
def pyJoinSep (sep : String) (names : List (Option String)) : Except PyError String :=
  if names.all (fun n => n.isSome) then
    Except.ok (pyIntercalate sep (names.map (fun n => n.getD "")))
  else Except.error PyError.typeError

/-- `by_loc[message.location].append(message)` on a `defaultdict(list)`:
insertion-ordered association list, new keys appended at the end. -/
def insertGroup (acc : List (Location × List Message)) (m : Message) :
    List (Location × List Message) :=
  if acc.any (fun e => e.1 = m.location) then
    acc.map (fun e => if e.1 = m.location then (e.1, e.2 ++ [m]) else e)
  else acc ++ [(m.location, [m])]

/-- One step of the loop at lines 207-211: combinable messages are grouped by
location, the rest pass through in order. -/
def splitStep (acc : List (Location × List Message) × List Message) (m : Message) :
    List (Location × List Message) × List Message :=
  if m.code = "unused-wildcard-import" then (insertGroup acc.1 m, acc.2)
  else (acc.1, acc.2 ++ [m])

/-- The loop at lines 207-211. -/
def splitCombinable (messages : List Message) :
    List (Location × List Message) × List Message :=
  messages.foldl splitStep ([], [])

/-- The loop at lines 213-220: one synthesized diagnostic per location group,
with source `"pylint"`, code `"unused-wildcard-import"` and message
`"Unused imports from wildcard import: %s"` filled with the joined group names. -/
def combineGroups : List (Location × List Message) → Except PyError (List Message)
  | [] => Except.ok []
  | (location, message_list) :: rest =>
    match extractNames message_list with
    | Except.error e => Except.error e
    | Except.ok names =>
      match pyJoinSep ", " names with
      | Except.error e => Except.error e
      | Except.ok joined =>
        (combineGroups rest).map
          (fun tail =>
            { source := "pylint", code := "unused-wildcard-import",
              location := location,
              message := "Unused imports from wildcard import: " ++ joined } :: tail)

/-- `PylintTool._combine_w0614` (lines 198-222). -/
def combine_w0614 (messages : List Message) : Except PyError (List Message) :=
  let split := splitCombinable messages
  (combineGroups split.1).map (fun combined => split.2 ++ combined)

/-- `PylintTool.combine` (lines 224-236): `sorted(self._combine_w0614(messages))`. -/
def combine (messages : List Message) : Except PyError (List Message) :=
  (combine_w0614 messages).map sortMessages

/-! ## POSIX path helpers (`os.path` on relative, separator-normalized paths).
Implemented over character lists so that every operation reduces inside the
kernel. -/

/-- `os.path.split`: split at the last separator; a path without a separator
yields an empty head. Always a pair. -/
def pySplit (p : String) : String × String :=
  let parts := splitSlash p
  if parts.length ≤ 1 then ("", p)
  else (pyIntercalate "/" parts.dropLast, parts.getLastD "")

/-- `os.path.join` of two components (second component relative). -/
def pyJoin2 (a b : String) : String := if a = "" then b else a ++ "/" ++ b

/-- `os.path.dirname`. -/
def pyDirname (p : String) : String := (pySplit p).1

/-- `os.path.join(*segs)` over a nonempty splat of relative segments. -/
def joinSegs : List String → String
  | [] => ""
  | s :: rest => rest.foldl pyJoin2 s

/-- `str(path.absolute())`: prepend the working directory to a relative path. -/
def pyAbsolute (cwd p : String) : String :=
  if "/".data.isPrefixOf p.data then p else pyJoin2 cwd p

/-! ## `PylintTool._get_pylint_check_paths` (lines 142-166) -/

/-- One iteration of the package loop (lines 148-157). `package` is the pair
returned by `os.path.split`, so `len(package) == 1` (line 150) never holds and
the inner loop `for i in range(1, len(package))` only tests
`os.path.join(*package[:-1])`, the immediate parent directory. `check_paths`
is a Python set, modelled as an insertion-ordered duplicate-free list. -/
def addPackage (check_paths : List String) (package : String × String) : List String :=
  let package_path := pyJoin2 package.1 package.2
  if package.1 ∈ check_paths then check_paths
  else if package_path ∈ check_paths then check_paths
  else check_paths ++ [package_path]

/-- One iteration of the module loop (lines 158-164): every prefix of the
module's directory is tested against the retained roots. -/
def addModule (check_paths : List String) (filepath : String) : List String :=
  let package := splitSlash (pyDirname filepath)
  if (List.range package.length).any
       (fun i => decide (joinSegs (package.take (i + 1)) ∈ check_paths)) then
    check_paths
  else if filepath ∈ check_paths then check_paths
  else check_paths ++ [filepath]

/-- `len` of the pair produced by `os.path.split`: always 2, so the
`packages.sort(key=len)` at line 146 is a stable sort by a constant key. -/
def pairLen (_ : String × String) : Nat := 2

/-- `PylintTool._get_pylint_check_paths` (lines 142-166) on the relative
package and module paths supplied by the file finder. The final
`found_files.to_absolute_path` conversion (line 165) is a one-to-one external
helper that preserves ancestor relations and is not modelled; the result list
is kept in insertion order, standing for the contents of the Python set. -/
def get_pylint_check_paths (package_paths module_paths : List String) : List String :=
  let packages := package_paths.map pySplit
  let packages := List.insertionSort (fun a b => pairLen a ≤ pairLen b) packages
  let check_paths := packages.foldl addPackage []
  module_paths.foldl addModule check_paths

/-- `p` is a strict path-segment ancestor of `q`. -/
def isPathAncestor (p q : String) : Prop :=
  p ≠ q ∧ List.isPrefixOf (splitSlash p) (splitSlash q) = true

instance (p q : String) : Decidable (isPathAncestor p q) :=
  inferInstanceAs (Decidable (_ ∧ _))

/-! ## `PylintTool._set_path_finder` (lines 129-140) -/

/-- `enum` models the iteration order of a CPython `set` of strings, which is
hash-dependent: a valid enumeration returns the members, each exactly once, in
an unspecified order. -/
def validSetEnum (enum : List String → List String) : Prop :=
  ∀ l, (enum l).Nodup ∧ ∀ x, x ∈ enum l ↔ x ∈ l

/-- One concrete valid enumeration order: reversed first-occurrence order. -/
def pySetEnumRev (l : List String) : List String := l.reverse.dedup

/-- `PylintTool._set_path_finder` (lines 129-140): captures `sys.path` into
`self._orig_sys_path` and, unless `use_pylint_default_path_finder` is set,
rebinds `sys.path` to `list(set([str(path.absolute()) for path in
extra_sys_path] + sys.path))`. Returns (captured original, new `sys.path`);
`enum` is the hash-order oracle of the `set`. -/
def set_path_finder (enum : List String → List String) (cwd : String)
    (sysPath extra_sys_path : List String) (use_pylint_default_path_finder : Bool) :
    List String × List String :=
  (sysPath,
   if use_pylint_default_path_finder then sysPath
   else enum (extra_sys_path.map (pyAbsolute cwd) ++ sysPath))

/-- Every target path comes strictly before every pre-existing entry that is
not itself a target (the ordering property the comment at lines 133-139
claims for the result of `_set_path_finder`). -/
def allPrecede (targets pre out : List String) : Prop :=
  ∀ t ∈ targets, ∀ p ∈ pre, p ∉ targets → List.indexOf t out < List.indexOf p out

instance (targets pre out : List String) : Decidable (allPrecede targets pre out) :=
  inferInstanceAs (Decidable (∀ t ∈ targets, ∀ p ∈ pre, _ → _))

/-! ## The engine (pylint) and the project configuration, modelled at the
interface boundary of spec section 6: plugin loading by module name that may
fail with an import-style error, enable/disable of a code that fails with an
unknown-code error, checkers with named options, a config-file loader, and a
locator `find_pylintrc`. The filesystem probe `os.path.exists` is part of the
same external environment. -/

/-- A checker exposed by the engine, with its declared option names. -/
structure Checker where
  options : List String

/-- The external environment: engine behaviour and filesystem. -/
structure Engine where
  importOk : String → Bool
  knownMsg : String → Bool
  checkers : List Checker
  findPylintrc : Option String
  fileExists : String → Bool

/-- The prospector configuration consumed by the adapter (spec section 6). -/
structure ProspectorConfig where
  libraries : List String
  workdir : String
  cwd : String
  profileName : String
  profileLoadPlugins : List String
  disabledMessages : List String
  toolOptions : List (String × String)
  maxLineLength : Option Nat
  useExternalConfigPylint : Bool
  externalConfigLocation : Option String
  configFile : Option String
  usePylintDefaultPathFinder : Bool

/-- The observable linter state built up by configuration: loaded plugins,
message enable/disable toggles (most recent first) and recorded checker option
assignments. -/
structure LinterState where
  plugins : List String
  msgToggles : List (String × Bool)
  checkerOptions : List (String × String)
deriving DecidableEq, Repr

/-- A fresh `ProspectorLinter` as far as this model observes it. -/
def initLinterState : LinterState := { plugins := [], msgToggles := [], checkerOptions := [] }

/-- The effective enabled/disabled state of a code: the most recent toggle. -/
def lookupToggle (st : LinterState) (code : String) : Option Bool :=
  (st.msgToggles.find? (fun e => e.1 == code)).map (fun e => e.2)

/-- pylint `PyLinter.load_plugin_modules`: loads each named module, skipping
modules already loaded, raising `ImportError` when an import fails. -/
def loadPluginModules (eng : Engine) (st : LinterState) :
    List String → Except PyError LinterState
  | [] => Except.ok st
  | modname :: rest =>
    if modname ∈ st.plugins then loadPluginModules eng st rest
    else if eng.importOk modname then
      loadPluginModules eng { st with plugins := st.plugins ++ [modname] } rest
    else Except.error PyError.importError

/-- pylint `disable`: raises `UnknownMessageError` on an unknown identifier. -/
def linterDisable (eng : Engine) (st : LinterState) (code : String) :
    Except PyError LinterState :=
  if eng.knownMsg code then
    Except.ok { st with msgToggles := (code, false) :: st.msgToggles }
  else Except.error PyError.unknownMessageError

/-- pylint `enable`: raises `UnknownMessageError` on an unknown identifier. -/
def linterEnable (eng : Engine) (st : LinterState) (code : String) :
    Except PyError LinterState :=
  if eng.knownMsg code then
    Except.ok { st with msgToggles := (code, true) :: st.msgToggles }
  else Except.error PyError.unknownMessageError

/-- `PylintTool._error_message` (lines 87-89):
`Message("prospector", "config-problem", Location(filepath, None, None, 0, 0), message)`. -/
def error_message (filepath message : String) : Message :=
  { source := "prospector", code := "config-problem",
    location := { path := filepath, moduleName := none, functionName := none,
                  line := 0, character := 0 },
    message := message }

/-- One iteration of the plugin-loading loops that collect `ImportError` into
config-problem messages (lines 43-47 against the profile path, lines 95-99
against the pylintrc path): a failed import is recorded, a successful one
updates the linter. -/
def pluginErrStep (eng : Engine) (path : String) (acc : List Message × LinterState)
    (plugin : String) : List Message × LinterState :=
  match loadPluginModules eng acc.2 [plugin] with
  | Except.ok st2 => (acc.1, st2)
  | Except.error _ =>
    (acc.1 ++ [error_message path ("Could not load plugin " ++ plugin)], acc.2)

/-- The checker option loop at lines 59-64: for every checker option whose name
is a key of the tool options, record a `set_option` call. Every checker is
assumed to expose `options` (the `hasattr` probe of line 60 is then true). -/
def applyToolOptions (checkers : List Checker) (options : List (String × String))
    (st : LinterState) : LinterState :=
  checkers.foldl
    (fun st checker =>
      checker.options.foldl
        (fun st option =>
          match options.find? (fun kv => kv.1 == option) with
          | some kv => { st with checkerOptions := st.checkerOptions ++ [(option, kv.2)] }
          | none => st)
        st)
    st

/-- The max-line-length loop at lines 77-84. -/
def applyMaxLineLength (checkers : List Checker) (mll : Option Nat)
    (st : LinterState) : LinterState :=
  checkers.foldl
    (fun st checker =>
      checker.options.foldl
        (fun st option =>
          match mll with
          | some v =>
            if option = "max-line-length" then
              { st with checkerOptions := st.checkerOptions ++ [("max-line-length", toString v)] }
            else st
          | none => st)
        st)
    st

/-- `PylintTool._prospector_configure` (lines 32-85). The django/celery/flask
plugin loads (lines 35-40) are not wrapped in a `try`, so an `ImportError`
there propagates; the profile plugin loop (lines 43-47) catches `ImportError`
into a config-problem message; the disabled-message loop (lines 49-55) catches
`UnknownMessageError`; the four fixed toggles (lines 72-75) are unguarded. -/
def prospector_configure (eng : Engine) (cfg : ProspectorConfig) (st : LinterState) :
    Except PyError (List Message × LinterState) := do
  let errors : List Message := []
  let st ← if "django" ∈ cfg.libraries then loadPluginModules eng st ["pylint_django"] else pure st
  let st ← if "celery" ∈ cfg.libraries then loadPluginModules eng st ["pylint_celery"] else pure st
  let st ← if "flask" ∈ cfg.libraries then loadPluginModules eng st ["pylint_flask"] else pure st
  let profile_path := pyJoin2 cfg.workdir cfg.profileName
  let acc := cfg.profileLoadPlugins.foldl (pluginErrStep eng profile_path) (errors, st)
  let errors := acc.1
  let st := acc.2
  let st := cfg.disabledMessages.foldl
    (fun st msg_id =>
      match linterDisable eng st msg_id with
      | Except.ok st2 => st2
      | Except.error _ => st)
    st
  let st := applyToolOptions eng.checkers cfg.toolOptions st
  let st ← linterDisable eng st "locally-disabled"
  let st ← linterEnable eng st "file-ignored"
  let st ← linterEnable eng st "suppressed-message"
  let st ← linterDisable eng st "deprecated-pragma"
  let st := applyMaxLineLength eng.checkers cfg.maxLineLength st
  return (errors, st)

/-- The content the engine reads from a native config file: explicit
enable/disable entries in file order, the boolean `config_from_file` returns
(whether plugins were auto-loaded), and the file's `load-plugins` list. -/
structure RcFile where
  toggles : List (String × Bool)
  pluginsLoadedReturn : Bool
  loadPlugins : List String

/-- `linter.config_from_file(pylintrc)`: the file's explicit toggles are
applied in file order on top of the current state (last applied wins). -/
def config_from_file (st : LinterState) (rc : RcFile) : LinterState :=
  { st with msgToggles := rc.toggles.foldl (fun acc t => t :: acc) st.msgToggles }

/-- `PylintTool._pylintrc_configure` (lines 91-100): load the file, then, when
the load did not already pull in plugins, load the file's plugin list with
`ImportError` collected as config-problem messages. `linter.config` is assumed
to expose `load_plugins` (the `hasattr` probe of line 94). -/
def pylintrc_configure (eng : Engine) (rc : RcFile) (pylintrc : String)
    (st : LinterState) : List Message × LinterState :=
  let st := config_from_file st rc
  if !rc.pluginsLoadedReturn then
    rc.loadPlugins.foldl (pluginErrStep eng pylintrc) ([], st)
  else ([], st)

/-- Python truthiness of an optional string (the empty string is falsy). -/
def pyTruthy : Option String → Bool
  | none => false
  | some s => !(s == "")

/-- Python `a or b` on optional strings. -/
def pyOrStr (a b : Option String) : Option String := if pyTruthy a then a else b

/-- The fallback file names of line 183, in order. -/
def fallbackFiles : List String := [".pylintrc", "pylintrc", "pyproject.toml", "setup.cfg"]

/-- The pylintrc discovery of lines 179-189:
`pylintrc = pylint_options.get("config_file") or external_config or find_pylintrc()`,
then, when still `None`, the first existing file among the fallback names
joined to the working directory. -/
def discover_pylintrc (eng : Engine) (cfg : ProspectorConfig) : Option String :=
  let pylintrc := pyOrStr (pyOrStr cfg.configFile cfg.externalConfigLocation) eng.findPylintrc
  match pylintrc with
  | some p => some p
  | none =>
    (fallbackFiles.map (fun possible => pyJoin2 cfg.workdir possible)).find?
      (fun p => eng.fileExists p)

/-- `PylintTool._get_pylint_configuration` (lines 168-196). Line 171
(`load_command_line_configuration`) is modelled as returning the check paths
as the parsed arguments; line 172 (`load_default_plugins`) has no observable
effect in this model. Returns (config messages, `configured_by`, linter state,
`self._args`). -/
def get_pylint_configuration (eng : Engine) (cfg : ProspectorConfig)
    (rcContent : String → RcFile) (check_paths : List String) (st : LinterState) :
    Except PyError (List Message × Option String × LinterState × List String) := do
  let args := check_paths
  let (config_messages, st) ← prospector_configure eng cfg st
  if cfg.useExternalConfigPylint then
    match discover_pylintrc eng cfg with
    | none => return (config_messages, none, st, args)
    | some pylintrc =>
      let res := pylintrc_configure eng (rcContent pylintrc) pylintrc st
      return (config_messages ++ res.1, some pylintrc, res.2, args)
  else
    return (config_messages, none, st, args)

/-! ## The adapter: `PylintTool.configure` (lines 102-127) and
`PylintTool.run` (lines 238-243) -/

/-- The file-discovery collaborator, at its interface (spec section 6). -/
structure FoundFiles where
  makeSyspath : List String
  pythonPackages : List String
  pythonModules : List String

/-- The per-run mutable state of `PylintTool` (`__init__`, lines 27-30):
`_args`, `_linter`, `_collector`, `_orig_sys_path`. -/
structure PylintToolState where
  args : Option (List String)
  linter : Option LinterState
  collectorInstalled : Bool
  origSysPath : List String
deriving DecidableEq, Repr

/-- `PylintTool.__init__` (lines 27-30). -/
def pylintToolInit : PylintToolState :=
  { args := none, linter := none, collectorInstalled := false, origSysPath := [] }

/-- `PylintTool.configure` (lines 102-127). The method reads none of the
adapter's per-run state: it only assigns `_orig_sys_path` (via
`_set_path_finder`), `_collector`, `_linter` and `_args`. The collector and
job-count wiring of lines 120-125 only touches external engine state. Returns
the new adapter state, the new `sys.path`, `configured_by` and the config
messages. -/
def configure (enum : List String → List String) (eng : Engine)
    (cfg : ProspectorConfig) (rcContent : String → RcFile) (found : FoundFiles)
    (sysPath : List String) :
    Except PyError (PylintToolState × List String × Option String × List Message) := do
  let extra_sys_path := found.makeSyspath
  let check_paths := found.pythonPackages ++ found.pythonModules
  let sp := set_path_finder enum cfg.cwd sysPath extra_sys_path cfg.usePylintDefaultPathFinder
  let (config_messages, configured_by, st, args) ←
    get_pylint_configuration eng cfg rcContent check_paths initLinterState
  let st ← linterDisable eng st "similarities"
  return ({ args := some args, linter := some st, collectorInstalled := true,
            origSysPath := sp.1 },
          sp.2, configured_by, config_messages)

/-- `PylintTool.run` (lines 238-243): `self._linter.check(self._args)` (an
`AttributeError` on `None` when `configure` never ran; the engine check itself
may raise, modelled by `engineRaises`), then `sys.path = self._orig_sys_path`
— executed only when `check` returned — then collect and combine. Returns the
run result and the final value of `sys.path`. -/
def run (engineRaises : Bool) (collectorMessages : List Message)
    (tool : PylintToolState) (sysPath : List String) :
    Except PyError (List Message) × List String :=
  match tool.linter with
  | none => (Except.error PyError.attributeError, sysPath)
  | some _ =>
    if engineRaises then (Except.error PyError.engineError, sysPath)
    else (combine collectorMessages, tool.origSysPath)

/-- Whether an `Except` result is a normal return. -/
def exceptOk {ε α : Type} : Except ε α → Bool
  | Except.ok _ => true
  | Except.error _ => false

/-! ## Concrete fixtures used by several theorems -/

/-- A location shared by the wildcard-import examples. -/
def locW : Location :=
  { path := "m.py", moduleName := none, functionName := none, line := 1, character := 0 }

/-- A raw pylint diagnostic as in spec section 8's combination scenario. -/
def wildFoo : Message :=
  { source := "pylint", code := "unused-wildcard-import", location := locW,
    message := "Unused import(s) foo from wildcard import" }

/-- The second raw diagnostic of the combination scenario. -/
def wildBar : Message :=
  { source := "pylint", code := "unused-wildcard-import", location := locW,
    message := "Unused import(s) bar from wildcard import" }

/-- A diagnostic whose code is not combinable. -/
def plainMsg : Message :=
  { source := "pylint", code := "unused-import", location := locW,
    message := "Unused import os" }

/-- A combinable diagnostic whose message does not match the extraction
pattern. -/
def badWild : Message :=
  { source := "pylint", code := "unused-wildcard-import", location := locW,
    message := "hello" }

/-- An environment in which every plugin import succeeds, every message code is
known, and no config file exists anywhere. -/
def engBase : Engine :=
  { importOk := fun _ => true, knownMsg := fun _ => true, checkers := [],
    findPylintrc := none, fileExists := fun _ => false }

/-- A minimal project configuration. -/
def cfgBase : ProspectorConfig :=
  { libraries := [], workdir := "/proj", cwd := "/proj", profileName := "profile.yaml",
    profileLoadPlugins := [], disabledMessages := [], toolOptions := [],
    maxLineLength := none, useExternalConfigPylint := false,
    externalConfigLocation := none, configFile := none,
    usePylintDefaultPathFinder := false }

/-- Config-file content oracle for runs that never read one. -/
def rcEmpty : String → RcFile :=
  fun _ => { toggles := [], pluginsLoadedReturn := true, loadPlugins := [] }

/-- Discovered files whose extra search path is the single target `/t`. -/
def foundT : FoundFiles :=
  { makeSyspath := ["/t"], pythonPackages := [], pythonModules := [] }

/-- The adapter state `configure pySetEnumRev engBase cfgBase rcEmpty foundT
["/usr/lib"]` produces. -/
def toolAfterBase : PylintToolState :=
  { args := some [],
    linter := some
      { plugins := [],
        msgToggles := [("similarities", false), ("deprecated-pragma", false),
                       ("suppressed-message", true), ("file-ignored", true),
                       ("locally-disabled", false)],
        checkerOptions := [] },
    collectorInstalled := true,
    origSysPath := ["/usr/lib"] }

/-! ## Lemmas about `combine` -/

/-- Messages without the combinable code pass straight through the grouping
loop. -/
theorem foldl_splitStep_of_no_combinable (msgs : List Message)
    (g : List (Location × List Message)) (o : List Message)
    (h : ∀ m ∈ msgs, m.code ≠ "unused-wildcard-import") :
    msgs.foldl splitStep (g, o) = (g, o ++ msgs) := by
  induction msgs generalizing o with
  | nil => simp
  | cons a rest ih =>
    have ha : a.code ≠ "unused-wildcard-import" := h a (List.mem_cons_self a rest)
    have hrest : ∀ m ∈ rest, m.code ≠ "unused-wildcard-import" :=
      fun m hm => h m (List.mem_cons_of_mem a hm)
    simp only [List.foldl_cons, splitStep, if_neg ha]
    rw [ih (o ++ [a]) hrest]
    simp

/-- On a list without combinable diagnostics, `combine` just sorts. -/
theorem combine_eq_sort_of_no_combinable (msgs : List Message)
    (h : ∀ m ∈ msgs, m.code ≠ "unused-wildcard-import") :
    combine msgs = Except.ok (sortMessages msgs) := by
  unfold combine combine_w0614 splitCombinable
  rw [foldl_splitStep_of_no_combinable msgs [] [] h]
  simp [combineGroups, Except.map]

/-- Sorting an already-sorted message list changes nothing. -/
theorem sortMessages_idem (l : List Message) :
    sortMessages (sortMessages l) = sortMessages l :=
  List.Sorted.insertionSort_eq (List.sorted_insertionSort msgLe l)

/-- C1 counterexample. The claim `combine (combine L) = combine L` for every
list L fails at the one-element list `[wildFoo]`: the synthesized diagnostic
carries the combinable code `"unused-wildcard-import"` itself and its message
`"Unused imports from wildcard import: (s)"` does not match
`_UNUSED_WILDCARD_IMPORT_RE`, so the second application of `combine` raises
`AttributeError` instead of returning the same list. -/
theorem combine_not_idempotent : (combine [wildFoo]).bind combine ≠ combine [wildFoo] := by
  decide

/-- C1, amended. `combine` is idempotent on every diagnostic list that contains
no diagnostic with the combinable code `"unused-wildcard-import"` (there it
reduces to sorting); when such a diagnostic is present, re-application fails as
`combine_not_idempotent` shows. -/
theorem combine_idempotent_on_noncombinable (msgs : List Message)
    (h : ∀ m ∈ msgs, m.code ≠ "unused-wildcard-import") :
    (combine msgs).bind combine = combine msgs := by
  rw [combine_eq_sort_of_no_combinable msgs h]
  have hsorted : ∀ m ∈ sortMessages msgs, m.code ≠ "unused-wildcard-import" := by
    intro m hm
    exact h m ((List.mem_insertionSort msgLe).mp hm)
  show combine (sortMessages msgs) = _
  rw [combine_eq_sort_of_no_combinable _ hsorted, sortMessages_idem]

/-- Witness for C1's amended theorem at a concrete non-combinable list. -/
theorem combine_idempotent_on_noncombinable_witness :
    (combine [plainMsg]).bind combine = combine [plainMsg] :=
  combine_idempotent_on_noncombinable [plainMsg] (by decide)

/-- C2. On the two scenario diagnostics the code returns one message reading
`"Unused imports from wildcard import: (s), (s)"`, because line 216 appends
`.group(1)` — the optional `"(s)"` literal of the pattern — instead of
`.group(2)`, the symbol name; the output the claim (and the regex's own
capture structure) expects, `"Unused imports from wildcard import: foo, bar"`,
is not produced. -/
theorem combine_uses_group_one_not_names :
    combine [wildFoo, wildBar] =
      Except.ok [{ source := "pylint", code := "unused-wildcard-import",
                   location := locW,
                   message := "Unused imports from wildcard import: (s), (s)" }] ∧
    combine [wildFoo, wildBar] ≠
      Except.ok [{ source := "pylint", code := "unused-wildcard-import",
                   location := locW,
                   message := "Unused imports from wildcard import: foo, bar" }] := by
  decide

/-- C3. The package loop only consults the immediate parent directory (the
head of the `os.path.split` pair), so with packages `a`, `a/b`, `a/b/c` the
retained roots are `a` and `a/b/c`: an ancestor/descendant pair, violating the
claimed invariant (and the comment at lines 143-144 of the source). -/
theorem check_paths_ancestor_violation :
    "a" ∈ get_pylint_check_paths ["a", "a/b", "a/b/c"] [] ∧
    "a/b/c" ∈ get_pylint_check_paths ["a", "a/b", "a/b/c"] [] ∧
    isPathAncestor "a" "a/b/c" := by
  decide

/-- C5. `list(set(...))` at line 140 enumerates in hash order: the reversed
order is a valid `set` enumeration, and under it the pre-existing entry
`/usr/lib` comes before the prepended target `/t`, so the claimed
all-targets-first ordering does not hold for the code's result. -/
theorem set_order_breaks_prepend :
    validSetEnum pySetEnumRev ∧
    (set_path_finder pySetEnumRev "/" ["/usr/lib"] ["/t"] false).2 = ["/usr/lib", "/t"] ∧
    ¬ allPrecede (["/t"].map (pyAbsolute "/")) ["/usr/lib"]
        (set_path_finder pySetEnumRev "/" ["/usr/lib"] ["/t"] false).2 := by
  refine ⟨fun l => ⟨List.nodup_dedup _, fun x => ?_⟩, by decide, by decide⟩
  simp [pySetEnumRev, List.mem_dedup, List.mem_reverse]

/-! ## Lemmas for C10: any combinable diagnostic whose message does not match
the pattern makes `combine` raise -/

/-- A message sits inside one of the location groups. -/
def inGroups (m : Message) (g : List (Location × List Message)) : Prop :=
  ∃ e ∈ g, m ∈ e.2

/-- The message just inserted is in its group. -/
theorem inGroups_insertGroup_self (acc : List (Location × List Message)) (m : Message) :
    inGroups m (insertGroup acc m) := by
  unfold insertGroup
  by_cases hany : acc.any (fun e => e.1 = m.location)
  · simp only [hany, if_true]
    obtain ⟨e, he, heq⟩ := List.any_eq_true.mp hany
    have heq2 : e.1 = m.location := of_decide_eq_true heq
    refine ⟨(e.1, e.2 ++ [m]), ?_, by simp⟩
    have := List.mem_map_of_mem
      (fun e => if e.1 = m.location then (e.1, e.2 ++ [m]) else e) he
    simpa [heq2] using this
  · simp only [hany, if_false]
    exact ⟨(m.location, [m]), by simp, by simp⟩

/-- Inserting another message never removes one from its group. -/
theorem inGroups_insertGroup_mono (acc : List (Location × List Message))
    (m x : Message) (hx : inGroups x acc) : inGroups x (insertGroup acc m) := by
  obtain ⟨e, he, hxe⟩ := hx
  unfold insertGroup
  by_cases hany : acc.any (fun e => e.1 = m.location)
  · simp only [hany, if_true]
    by_cases heq : e.1 = m.location
    · refine ⟨(e.1, e.2 ++ [m]), ?_, by simp [hxe]⟩
      have := List.mem_map_of_mem
        (fun e => if e.1 = m.location then (e.1, e.2 ++ [m]) else e) he
      simpa [heq] using this
    · refine ⟨e, ?_, hxe⟩
      have := List.mem_map_of_mem
        (fun e => if e.1 = m.location then (e.1, e.2 ++ [m]) else e) he
      simpa [heq] using this
  · simp only [hany, if_false]
    exact ⟨e, List.mem_append_left _ he, hxe⟩

/-- Group membership is preserved by each grouping-loop step. -/
theorem inGroups_splitStep (acc : List (Location × List Message) × List Message)
    (m x : Message) (hx : inGroups x acc.1) : inGroups x (splitStep acc m).1 := by
  unfold splitStep
  by_cases hc : m.code = "unused-wildcard-import"
  · simpa [hc] using inGroups_insertGroup_mono acc.1 m x hx
  · simpa [hc] using hx

/-- Group membership is preserved by the whole grouping loop. -/
theorem inGroups_foldl (msgs : List Message)
    (acc : List (Location × List Message) × List Message) (x : Message)
    (hx : inGroups x acc.1) : inGroups x (msgs.foldl splitStep acc).1 := by
  induction msgs generalizing acc with
  | nil => exact hx
  | cons a rest ih => exact ih (splitStep acc a) (inGroups_splitStep acc a x hx)

/-- Every combinable message of the input ends up inside some location group. -/
theorem mem_splitCombinable (msgs : List Message) (m : Message) (hm : m ∈ msgs)
    (hc : m.code = "unused-wildcard-import") :
    inGroups m (splitCombinable msgs).1 := by
  unfold splitCombinable
  suffices hgen : ∀ (acc : List (Location × List Message) × List Message),
      inGroups m (msgs.foldl splitStep acc).1 from hgen ([], [])
  intro acc
  induction msgs generalizing acc with
  | nil => cases hm
  | cons a rest ih =>
    rcases List.mem_cons.mp hm with h | h
    · subst h
      refine inGroups_foldl rest (splitStep acc m) m ?_
      unfold splitStep
      simpa [hc] using inGroups_insertGroup_self acc.1 m
    · exact ih h (splitStep acc a)

/-- `extractNames` raises once a non-matching message is in the group. -/
theorem extractNames_error (ms : List Message) (m : Message) (hm : m ∈ ms)
    (hmatch : wildcardMatch m.message = none) :
    extractNames ms = Except.error PyError.attributeError := by
  induction ms with
  | nil => cases hm
  | cons a rest ih =>
    cases hma : wildcardMatch a.message with
    | none => simp [extractNames, hma]
    | some g =>
      rcases List.mem_cons.mp hm with h | h
      · subst h
        rw [hma] at hmatch
        cases hmatch
      · simp [extractNames, hma, ih h, Except.map]

/-- `combineGroups` raises once some group holds a non-matching message. -/
theorem combineGroups_error (g : List (Location × List Message))
    (hg : ∃ e ∈ g, ∃ m ∈ e.2, wildcardMatch m.message = none) :
    ∃ err, combineGroups g = Except.error err := by
  induction g with
  | nil =>
    obtain ⟨e, he, _⟩ := hg
    cases he
  | cons p rest ih =>
    obtain ⟨loc, ms⟩ := p
    obtain ⟨e, he, m, hme, hmm⟩ := hg
    rcases List.mem_cons.mp he with h | h
    · refine ⟨PyError.attributeError, ?_⟩
      have hms : m ∈ ms := by
        have : e.2 = ms := by rw [h]
        rwa [this] at hme
      simp [combineGroups, extractNames_error ms m hms hmm]
    · cases hex : extractNames ms with
      | error e2 => exact ⟨e2, by simp [combineGroups, hex]⟩
      | ok names =>
        cases hj : pyJoinSep ", " names with
        | error e2 => exact ⟨e2, by simp [combineGroups, hex, hj]⟩
        | ok joined =>
          obtain ⟨err, herr⟩ := ih ⟨e, h, m, hme, hmm⟩
          exact ⟨err, by simp [combineGroups, hex, hj, herr, Except.map]⟩

/-- C10. For any diagnostic list containing a diagnostic whose code is
`"unused-wildcard-import"` but whose message does not match
`_UNUSED_WILDCARD_IMPORT_RE`, `combine` raises an exception (`.group(1)` on a
failed match is an `AttributeError`; an earlier group may already have raised)
instead of returning a diagnostic list. -/
theorem combine_raises_on_nonmatching (msgs : List Message) (m : Message)
    (hm : m ∈ msgs) (hc : m.code = "unused-wildcard-import")
    (hmatch : wildcardMatch m.message = none) :
    ∃ err, combine msgs = Except.error err := by
  obtain ⟨e, he, hme⟩ := mem_splitCombinable msgs m hm hc
  obtain ⟨err, herr⟩ := combineGroups_error _ ⟨e, he, m, hme, hmatch⟩
  exact ⟨err, by simp [combine, combine_w0614, herr, Except.map]⟩

/-- Witness for C10 at the concrete non-matching diagnostic `badWild`. -/
theorem combine_raises_on_nonmatching_witness :
    ∃ err, combine [badWild] = Except.error err :=
  combine_raises_on_nonmatching [badWild] badWild (by decide) (by decide) (by decide)

/-! ## C6: ecosystem auto-plugin failures -/

/-- An environment in which importing `pylint_django` fails and everything else
succeeds. -/
def engNoDjango : Engine :=
  { engBase with importOk := fun s => !(s == "pylint_django") }

/-- A configuration whose project uses django. -/
def cfgDjango : ProspectorConfig := { cfgBase with libraries := ["django"] }

/-- C6 counterexample. For the concrete configuration that uses django while
`pylint_django` cannot be imported, `_prospector_configure` raises the
`ImportError` (lines 35-36 have no `try`), so the failure is neither swallowed
nor recorded as a config-problem message. -/
theorem ecosystem_plugin_failure_counterexample :
    prospector_configure engNoDjango cfgDjango initLinterState
      = Except.error PyError.importError := by
  decide

/-- C6, amended. A failed import of an ecosystem auto-plugin is not caught:
whenever the configuration names django and importing `pylint_django` fails,
`_prospector_configure` propagates `ImportError` (only the profile-listed
plugin loop of lines 43-47 converts failures into config-problem messages). -/
theorem ecosystem_plugin_failure_propagates (eng : Engine) (cfg : ProspectorConfig)
    (hlib : "django" ∈ cfg.libraries) (himp : eng.importOk "pylint_django" = false) :
    prospector_configure eng cfg initLinterState = Except.error PyError.importError := by
  unfold prospector_configure
  simp [hlib, loadPluginModules, initLinterState, himp, bind, Except.bind]

/-- Witness for C6's amended theorem. -/
theorem ecosystem_plugin_failure_propagates_witness :
    prospector_configure engNoDjango cfgDjango initLinterState
      = Except.error PyError.importError :=
  ecosystem_plugin_failure_propagates engNoDjango cfgDjango (by decide) (by decide)

/-! ## C4: restoration of sys.path -/

/-- C4 counterexample. A complete concrete run: `configure` rebinds `sys.path`
from `["/usr/lib"]` to `["/usr/lib", "/t"]`, and when the engine check raises,
`run` propagates the exception before reaching the `sys.path =
self._orig_sys_path` assignment of line 240, leaving `sys.path` different from
its pre-configure value. -/
theorem sys_path_not_restored_on_engine_failure :
    configure pySetEnumRev engBase cfgBase rcEmpty foundT ["/usr/lib"]
      = Except.ok (toolAfterBase, ["/usr/lib", "/t"], none, []) ∧
    (run true [] toolAfterBase ["/usr/lib", "/t"]).2 ≠ ["/usr/lib"] := by
  decide

/-- C4, amended. Restoration happens only on the success path: whenever
`configure` succeeded and the engine check returns normally, `run` sets the
shared search path back to its pre-configure value; an engine exception leaves
it modified, as `sys_path_not_restored_on_engine_failure` shows. -/
theorem sys_path_restored_on_success (enum : List String → List String)
    (eng : Engine) (cfg : ProspectorConfig) (rcContent : String → RcFile)
    (found : FoundFiles) (sysPath : List String) (tool : PylintToolState)
    (sp1 : List String) (cb : Option String) (msgs collectorMsgs : List Message)
    (h : configure enum eng cfg rcContent found sysPath
          = Except.ok (tool, sp1, cb, msgs)) :
    (run false collectorMsgs tool sp1).2 = sysPath := by
  unfold configure at h
  cases hg : get_pylint_configuration eng cfg rcContent
      (found.pythonPackages ++ found.pythonModules) initLinterState with
  | error e => simp [hg, bind, Except.bind] at h
  | ok r =>
    obtain ⟨cm, cb2, st, args⟩ := r
    cases hd : linterDisable eng st "similarities" with
    | error e => simp [hg, hd, bind, Except.bind] at h
    | ok st2 =>
      simp only [hg, hd, bind, Except.bind, pure, Except.pure, set_path_finder,
        Except.ok.injEq, Prod.mk.injEq] at h
      obtain ⟨htool, _, _⟩ := h
      subst htool
      simp [run]

/-- Witness for C4's amended theorem at the concrete base run. -/
theorem sys_path_restored_on_success_witness :
    (run false [] toolAfterBase ["/usr/lib", "/t"]).2 = ["/usr/lib"] :=
  sys_path_restored_on_success pySetEnumRev engBase cfgBase rcEmpty foundT
    ["/usr/lib"] toolAfterBase ["/usr/lib", "/t"] none [] [] (by decide)

/-! ## C7: the external config file layer is applied after the profile layer -/

/-- `loadPluginModules` never changes the message toggles. -/
theorem loadPluginModules_msgToggles (eng : Engine) (l : List String) :
    ∀ (st st2 : LinterState), loadPluginModules eng st l = Except.ok st2 →
      st2.msgToggles = st.msgToggles := by
  induction l with
  | nil =>
    intro st st2 h
    cases h
    rfl
  | cons a rest ih =>
    intro st st2 h
    simp only [loadPluginModules] at h
    split at h
    all_goals try split at h
    all_goals first
      | cases h
      | (have h2 := ih _ st2 h
         simpa using h2)

/-- One error-collecting plugin step never changes the message toggles. -/
theorem pluginErrStep_msgToggles (eng : Engine) (path : String)
    (acc : List Message × LinterState) (plugin : String) :
    ((pluginErrStep eng path acc plugin).2).msgToggles = (acc.2).msgToggles := by
  unfold pluginErrStep
  cases h : loadPluginModules eng acc.2 [plugin] with
  | ok st2 => exact loadPluginModules_msgToggles eng [plugin] acc.2 st2 h
  | error e => rfl

/-- The whole error-collecting plugin loop never changes the message toggles. -/
theorem foldl_pluginErrStep_msgToggles (eng : Engine) (path : String)
    (l : List String) (acc : List Message × LinterState) :
    ((l.foldl (pluginErrStep eng path) acc).2).msgToggles = (acc.2).msgToggles := by
  induction l generalizing acc with
  | nil => rfl
  | cons a rest ih => rw [List.foldl_cons, ih, pluginErrStep_msgToggles]

/-- `_pylintrc_configure` changes the toggles exactly as `config_from_file`
does. -/
theorem pylintrc_configure_msgToggles (eng : Engine) (rc : RcFile)
    (pylintrc : String) (st : LinterState) :
    ((pylintrc_configure eng rc pylintrc st).2).msgToggles
      = (config_from_file st rc).msgToggles := by
  unfold pylintrc_configure
  cases rc.pluginsLoadedReturn with
  | false => simpa using foldl_pluginErrStep_msgToggles eng pylintrc rc.loadPlugins ([], config_from_file st rc)
  | true => rfl

/-- C7. In `_get_pylint_configuration` the external config file (lines 177-194)
is loaded after `_prospector_configure` (line 174): when the profile left code
X disabled and the discovered file re-enables X, the returned linter state has
X enabled — the file layer wins. -/
theorem pylintrc_overrides_profile_disable (eng : Engine) (cfg : ProspectorConfig)
    (rcContent : String → RcFile) (check_paths : List String) (st st1 : LinterState)
    (msgs : List Message) (X rcPath : String)
    (hext : cfg.useExternalConfigPylint = true)
    (hpc : prospector_configure eng cfg st = Except.ok (msgs, st1))
    (hprofile : lookupToggle st1 X = some false)
    (hdisc : discover_pylintrc eng cfg = some rcPath)
    (hrc : (rcContent rcPath).toggles = [(X, true)]) :
    ∃ errs st2,
      get_pylint_configuration eng cfg rcContent check_paths st
        = Except.ok (msgs ++ errs, some rcPath, st2, check_paths) ∧
      lookupToggle st2 X = some true := by
  refine ⟨(pylintrc_configure eng (rcContent rcPath) rcPath st1).1,
          (pylintrc_configure eng (rcContent rcPath) rcPath st1).2, ?_, ?_⟩
  · unfold get_pylint_configuration
    simp [hpc, hext, hdisc, bind, Except.bind, pure, Except.pure]
  · unfold lookupToggle
    rw [pylintrc_configure_msgToggles]
    simp [config_from_file, hrc]

/-- The configuration for the C7 witness: profile disables `X0`, external
config honored, explicit config file `/rc`. -/
def cfgW7 : ProspectorConfig :=
  { cfgBase with useExternalConfigPylint := true, configFile := some "/rc",
                 disabledMessages := ["X0"] }

/-- The config file content for the C7 witness: `/rc` re-enables `X0`. -/
def rcW7 : String → RcFile :=
  fun _ => { toggles := [("X0", true)], pluginsLoadedReturn := true, loadPlugins := [] }

/-- The linter state `_prospector_configure` produces for `cfgW7`. -/
def stW7 : LinterState :=
  { plugins := [],
    msgToggles := [("deprecated-pragma", false), ("suppressed-message", true),
                   ("file-ignored", true), ("locally-disabled", false),
                   ("X0", false)],
    checkerOptions := [] }

/-- Witness for C7 at the concrete profile-disables/file-enables run. -/
theorem pylintrc_overrides_profile_disable_witness :
    ∃ errs st2,
      get_pylint_configuration engBase cfgW7 rcW7 [] initLinterState
        = Except.ok ([] ++ errs, some "/rc", st2, []) ∧
      lookupToggle st2 "X0" = some true :=
  pylintrc_overrides_profile_disable engBase cfgW7 rcW7 [] initLinterState stW7
    [] "X0" "/rc" (by decide) (by decide) (by decide) (by decide) (by decide)

/-! ## C8: no state checking in configure/run -/

/-- C8 counterexample. Calling `configure` a second time on the same adapter
instance (its second call sees the `sys.path` value the first call left
behind) completes normally both times: there is no invalid-state error on the
second call. -/
theorem second_configure_succeeds :
    exceptOk (configure pySetEnumRev engBase cfgBase rcEmpty foundT ["/usr/lib"]) = true ∧
    exceptOk (configure pySetEnumRev engBase cfgBase rcEmpty foundT ["/usr/lib", "/t"]) = true := by
  decide

/-- C8, amended. The adapter performs no state validation: whether `configure`
succeeds is independent of any previous call (its only state input is
`sys.path`, which does not influence success), and `run` before `configure`
fails with an `AttributeError` from the `None` linter — an ordinary runtime
failure, not a deliberate invalid-state signal. -/
theorem configure_and_run_have_no_state_check :
    (∀ (enum : List String → List String) (eng : Engine) (cfg : ProspectorConfig)
       (rcContent : String → RcFile) (found : FoundFiles) (sysPath sysPath2 : List String),
        exceptOk (configure enum eng cfg rcContent found sysPath)
          = exceptOk (configure enum eng cfg rcContent found sysPath2)) ∧
    (∀ (engineRaises : Bool) (collectorMessages : List Message) (sysPath : List String),
        run engineRaises collectorMessages pylintToolInit sysPath
          = (Except.error PyError.attributeError, sysPath)) := by
  constructor
  · intro enum eng cfg rcContent found sp sp2
    unfold configure
    cases hg : get_pylint_configuration eng cfg rcContent
        (found.pythonPackages ++ found.pythonModules) initLinterState with
    | error e => simp [hg, bind, Except.bind, exceptOk]
    | ok r =>
      obtain ⟨cm, cb, st, args⟩ := r
      cases hd : linterDisable eng st "similarities" with
      | error e => simp [hg, hd, bind, Except.bind, exceptOk]
      | ok st2 => simp [hg, hd, bind, Except.bind, pure, Except.pure, exceptOk]
  · intro engineRaises collectorMessages sysPath
    rfl

/-! ## C9: discovery order of the external config file -/

/-- The discovery order exactly as the claim states it: the explicit path from
tool options; else the externally supplied config location; else the engine's
own locator; else the first existing file among `.pylintrc`, `pylintrc`,
`pyproject.toml`, `setup.cfg` joined to the working directory, in that order;
none when nothing exists. -/
def discoverySpec (eng : Engine) (cfg : ProspectorConfig) : Option String :=
  match cfg.configFile with
  | some p => some p
  | none =>
    match cfg.externalConfigLocation with
    | some p => some p
    | none =>
      match eng.findPylintrc with
      | some p => some p
      | none =>
        ([".pylintrc", "pylintrc", "pyproject.toml", "setup.cfg"].map
          (fun f => pyJoin2 cfg.workdir f)).find? (fun p => eng.fileExists p)

/-- C9. Provided no configured path is the (falsy) empty string, the code's
discovery (lines 179-189) equals the claim's priority order, and when nothing
is discovered `_get_pylint_configuration` returns normally with no
`configured_by` identifier. -/
theorem pylintrc_discovery_follows_spec (eng : Engine) (cfg : ProspectorConfig)
    (h1 : cfg.configFile ≠ some "") (h2 : cfg.externalConfigLocation ≠ some "")
    (h3 : eng.findPylintrc ≠ some "") :
    discover_pylintrc eng cfg = discoverySpec eng cfg ∧
    (cfg.useExternalConfigPylint = true → discover_pylintrc eng cfg = none →
      ∀ (rcContent : String → RcFile) (check_paths : List String)
        (st st2 : LinterState) (msgs : List Message),
        prospector_configure eng cfg st = Except.ok (msgs, st2) →
        get_pylint_configuration eng cfg rcContent check_paths st
          = Except.ok (msgs, none, st2, check_paths)) := by
  constructor
  · unfold discover_pylintrc discoverySpec
    cases hcf : cfg.configFile with
    | some s =>
      have hs : ¬(s = "") := fun hh => h1 (by rw [hcf, hh])
      simp [pyOrStr, pyTruthy, hs]
    | none =>
      cases hec : cfg.externalConfigLocation with
      | some s =>
        have hs : ¬(s = "") := fun hh => h2 (by rw [hec, hh])
        simp [pyOrStr, pyTruthy, hs]
      | none =>
        cases hfp : eng.findPylintrc with
        | some s =>
          have hs : ¬(s = "") := fun hh => h3 (by rw [hfp, hh])
          simp [pyOrStr, pyTruthy, hs, fallbackFiles]
        | none => simp [pyOrStr, pyTruthy, fallbackFiles]
  · intro hext hdisc rcContent check_paths st st2 msgs hpc
    unfold get_pylint_configuration
    simp [hpc, hext, hdisc, bind, Except.bind, pure, Except.pure]

/-- The configuration for the C9 witness: external config honored, nothing
configured, no file exists. -/
def cfgW9 : ProspectorConfig := { cfgBase with useExternalConfigPylint := true }

/-- The linter state `_prospector_configure` produces for `cfgW9`. -/
def stW9 : LinterState :=
  { plugins := [],
    msgToggles := [("deprecated-pragma", false), ("suppressed-message", true),
                   ("file-ignored", true), ("locally-disabled", false)],
    checkerOptions := [] }

/-- Witness for C9 at the concrete nothing-found run. -/
theorem pylintrc_discovery_follows_spec_witness :
    discover_pylintrc engBase cfgW9 = discoverySpec engBase cfgW9 ∧
    get_pylint_configuration engBase cfgW9 rcEmpty [] initLinterState
      = Except.ok ([], none, stW9, []) := by
  have h := pylintrc_discovery_follows_spec engBase cfgW9
    (by decide) (by decide) (by decide)
  exact ⟨h.1, h.2 (by decide) (by decide) rcEmpty [] initLinterState stW9 [] (by decide)⟩

end Prospector
